import Mathlib

/-!
# Shallow embedding of `src/inventory_dashboard.py` (InventoryDashboard)

Conventions of the embedding:

* pandas float quantities are modelled as `ℚ` (no claim depends on
  floating-point rounding; the program only adds, subtracts and compares).
* A pandas `NaN` / an absent cell value is modelled as `none : Option _`.
* A worksheet (one week's sheet) is a list of rows; a pandas DataFrame
  column lookup by composite key is a `List.filter` over the rows.
* The five fixed worksheets `"week 1" … "week 5"` become the five fields
  of the `Frames` structure (week 1 is the newest snapshot, as in the code).
* `str.contains(pat, case=False, na=False)` compiles `pat` as a regular
  expression with `re.IGNORECASE`.  We model the fragment of Python regex
  syntax actually needed for the claims: literal characters and the `.`
  wildcard (`regexSearch`); theorems about other patterns are restricted to
  metacharacter-free queries, where this fragment is exact.
-/

namespace InventoryDashboard

/-- Identity key used by the aggregated (cross-location) low-stock view:
`group_cols_total = ["Sub Group", "Brand", "Desc", "Unit"]` (line 283). -/
structure Identity where
  subGroup : String
  brand : String
  desc : String
  unit : String
deriving DecidableEq, Repr

/-- One normalized stock record, after the renaming at lines 72-78:
`{Sub Group, Brand, Desc, Location, Unit, Quantity}`. -/
structure StockRecord where
  subGroup : String
  brand : String
  desc : String
  location : String
  unit : String
  quantity : ℚ
deriving DecidableEq, Repr

/-- The five weekly record sets `dataframes["week 1"] … dataframes["week 5"]`
(week 1 newest). -/
structure Frames where
  w1 : List StockRecord
  w2 : List StockRecord
  w3 : List StockRecord
  w4 : List StockRecord
  w5 : List StockRecord
deriving Repr

/-- Line 71: `pd.to_numeric(df["Quantity"], errors="coerce")`.  The input is
the already-parsed result: `none` for a value that fails numeric coercion. -/
def toNumericCoerced (raw : Option ℚ) : Option ℚ := raw

/-- Line 71: `.clip(lower=0)` — clamps negatives to 0, leaves NaN as NaN. -/
def clipLower0 (x : Option ℚ) : Option ℚ := x.map (fun v => max v 0)

/-- Line 71 (and lines 249-250, 315-316, 387-388): `.fillna(0)`. -/
def fillna0 (x : Option ℚ) : ℚ := x.getD 0

/-- Line 71: the full quantity normalization
`pd.to_numeric(..., errors="coerce").clip(lower=0).fillna(0)`. -/
def normalizeQuantity (raw : Option ℚ) : ℚ := fillna0 (clipLower0 (toNumericCoerced raw))

/-- The aggregated-view identity of a record (`Location` dropped). -/
def toIdentity (r : StockRecord) : Identity :=
  ⟨r.subGroup, r.brand, r.desc, r.unit⟩

/-- The row predicate of the aggregated match at lines 296-301 (and of the
`groupby` keys at line 283): equality on `Sub Group`, `Brand`, `Desc`, `Unit`. -/
def matchesIdentity (id : Identity) (r : StockRecord) : Bool :=
  r.subGroup = id.subGroup && r.brand = id.brand && r.desc = id.desc && r.unit = id.unit

/-- Lines 284-286: `df_week1.groupby(group_cols_total).agg({"Quantity": "sum"})` —
the week-1 quantity of one group key is the sum of the quantities of the
records carrying that key. -/
def aggQtyWeek1 (frame : List StockRecord) (id : Identity) : ℚ :=
  ((frame.filter (matchesIdentity id)).map (fun r => r.quantity)).sum

/-- Lines 295-306: for a later week, the rows matching the identity (without
`Location`) are summed; when there is no match the appended value is `0`. -/
def weekQtyLater (frame : List StockRecord) (id : Identity) : ℚ :=
  let matching := frame.filter (matchesIdentity id)
  if matching.isEmpty then 0 else (matching.map (fun r => r.quantity)).sum

/-- Lines 315-323 (one loop iteration, on already-numeric cells): the change
column is `q_to - q_from`, overwritten with the `"N/A"` marker (here `none`)
when either week's value is `0` (`row[date_from] == 0 or row[date_to] == 0`). -/
def deltaCell (qFrom qTo : ℚ) : Option ℚ :=
  if qFrom = 0 ∨ qTo = 0 then none else some (qTo - qFrom)

/-- Lines 244-257 and 382-395 (per-location views): the two week columns are
first coerced with `pd.to_numeric(...).fillna(0)` (an absent `"N/A"` cell
becomes `0`), then the change cell is computed as in `deltaCell`. -/
def deltaCellOpt (qFrom qTo : Option ℚ) : Option ℚ :=
  deltaCell (fillna0 qFrom) (fillna0 qTo)

/-- Lines 326-330: `"Last Week Usage"` is the week2→week1 change column value
`x` when `x != "N/A" and x > 0`, else `0`.  The change column consulted is the
one built from the week-1 and week-2 aggregated totals. -/
def lastWeekUsage (f : Frames) (id : Identity) : ℚ :=
  match deltaCell (aggQtyWeek1 f.w1 id) (weekQtyLater f.w2 id) with
  | none => 0
  | some v => if v > 0 then v else 0

/-- The group keys of the `groupby` at line 284: the distinct identities
occurring in the week-1 frame. -/
def lowStockIdentities (f : Frames) : List Identity :=
  (f.w1.map toIdentity).dedup

/-- Line 345: the comparison `low_stock_df[week1_date] < low_stock_df["Last Week Usage"]`. -/
def lowStockCompare (qty usage : ℚ) : Bool :=
  decide (qty < usage)

/-- Line 345: `low_stock_total` — the aggregated identities whose week-1 total
is strictly below `"Last Week Usage"`. -/
def lowStockTotal (f : Frames) : List Identity :=
  (lowStockIdentities f).filter (fun id => lowStockCompare (aggQtyWeek1 f.w1 id) (lastWeekUsage f id))

/-! ## Per-location views (search result, lines 220-257; detail view, lines 353-395) -/

/-- Lines 230-236 (and 368-374): exact equality on all five fields, `Location`
included. -/
def matchesRecord (r s : StockRecord) : Bool :=
  s.subGroup = r.subGroup && s.brand = r.brand && s.desc = r.desc &&
    s.location = r.location && s.unit = r.unit

/-- Lines 237-240: `matching_row["Quantity"].iloc[0]` when a match exists,
otherwise the `"N/A"` marker (`none`). -/
def lookupQty (frame : List StockRecord) (r : StockRecord) : Option ℚ :=
  ((frame.filter (matchesRecord r)).head?).map (fun s => s.quantity)

/-- Lines 220-241: the five per-week quantity cells of one search-result row —
week 1 is the row's own `Quantity`, later weeks come from `lookupQty`. -/
def searchQtys (f : Frames) (r : StockRecord) : List (Option ℚ) :=
  [some r.quantity, lookupQty f.w2 r, lookupQty f.w3 r, lookupQty f.w4 r, lookupQty f.w5 r]

/-- Lines 244-257: the loop `for i in range(len(sorted_weeks) - 1)` — one change
cell per adjacent pair of week columns. -/
def adjacentDeltas : List (Option ℚ) → List (Option ℚ)
  | a :: b :: rest => deltaCellOpt a b :: adjacentDeltas (b :: rest)
  | _ => []

/-- The four change cells of one search-result row. -/
def searchDeltas (f : Frames) (r : StockRecord) : List (Option ℚ) :=
  adjacentDeltas (searchQtys f r)

/-! ## Search filter (lines 205-217 and 274-277; same logic at 416-421)

`str.contains(pat, case=False, na=False)` compiles `pat` as a regular
expression with `re.IGNORECASE`.  `regexSearch` models the fragment of that
regex language consisting of literal characters and the `.` wildcard; on
queries containing no regex metacharacter it coincides with case-insensitive
substring search (`isSubstrCI`), proved below. -/

/-- One pattern character against one text character, `re.IGNORECASE` style:
`.` matches anything, a literal matches up to case. -/
def charMatches (p c : Char) : Bool :=
  p = '.' || p.toLower = c.toLower

/-- Does the pattern match a prefix of the text (anchored at this position)? -/
def matchHere : List Char → List Char → Bool
  | [], _ => true
  | _ :: _, [] => false
  | p :: ps, c :: cs => charMatches p c && matchHere ps cs

/-- Model of `re.search`: try the anchored match at every start position. -/
def regexSearch (pat : List Char) : List Char → Bool
  | [] => matchHere pat []
  | c :: cs => matchHere pat (c :: cs) || regexSearch pat cs

/-- Case-insensitive equality of two characters. -/
def charEqCI (p c : Char) : Bool :=
  p.toLower = c.toLower

/-- Is the pattern a case-insensitive literal prefix of the text? -/
def literalHere : List Char → List Char → Bool
  | [], _ => true
  | _ :: _, [] => false
  | p :: ps, c :: cs => charEqCI p c && literalHere ps cs

/-- Case-insensitive substring test (the spec's reading of the filter). -/
def substrCI (pat : List Char) : List Char → Bool
  | [] => literalHere pat []
  | c :: cs => literalHere pat (c :: cs) || substrCI pat cs

/-- Case-insensitive substring test on strings. -/
def isSubstrCI (q s : String) : Bool :=
  substrCI q.toList s.toList

/-- Python regex metacharacters: queries free of these are matched literally. -/
def isRegexMeta (c : Char) : Bool :=
  c ∈ ['.', '*', '+', '?', '[', ']', '(', ')', '\x7b', '\x7d', '\\', '|', '^', '$']

/-- Lines 213-217 (and 417-421): a row qualifies when the query matches its
`Sub Group`, `Brand` or `Desc` field (`|` of the three `str.contains`). -/
def rowMatchesQuery (q : String) (r : StockRecord) : Bool :=
  regexSearch q.toList r.subGroup.toList || regexSearch q.toList r.brand.toList ||
    regexSearch q.toList r.desc.toList

/-- Lines 213-217: `filtered_df`. -/
def searchFilter (rows : List StockRecord) (q : String) : List StockRecord :=
  rows.filter (fun r => rowMatchesQuery q r)

/-- The three user-visible outcomes of the search section. -/
inductive SearchOutcome where
  /-- Line 277: `st.write("請輸入搜尋關鍵字")` — the explicit "no query" state. -/
  | noQuery : SearchOutcome
  /-- Line 275: `st.write("無符合條件的結果")` — zero results. -/
  | zeroResults : SearchOutcome
  /-- Lines 219-273: the rendered result rows. -/
  | results (rows : List StockRecord) : SearchOutcome
deriving DecidableEq, Repr

/-- Lines 212-277: `if search_term or submit_button:` (Python truthiness:
a non-empty query, or the form's submit button pressed), then
`if not filtered_df.empty:` results else zero-results; otherwise no-query. -/
def searchBranch (rows : List StockRecord) (q : String) (submitted : Bool) : SearchOutcome :=
  if q ≠ "" ∨ submitted = true then
    if (searchFilter rows q).isEmpty then .zeroResults else .results (searchFilter rows q)
  else .noQuery

/-! ## Snapshot loader (`get_data_from_google_sheet`, lines 50-88) -/

/-- One raw worksheet row: identity cells as read, and the quantity after
`pd.to_numeric(..., errors="coerce")` (`none` = failed numeric coercion). -/
structure RawRow where
  subGroup : String
  brand : String
  desc : String
  location : String
  unit : String
  quantity : Option ℚ
deriving DecidableEq, Repr

/-- One worksheet: its header labels (as read, before stripping), its rows, and
the value of the fixed "as-of" cell `I1` (`none` = empty cell). -/
structure Worksheet where
  columns : List String
  rows : List RawRow
  asOfCell : Option String
deriving Repr

/-- Lines 62-63: `pd.DataFrame(worksheet.get_all_records())`.  When a sheet has
header labels but no data rows, `get_all_records()` returns `[]` and the
resulting DataFrame carries no columns at all (a bare `RangeIndex`), so the
header labels are lost; only a sheet with at least one data row yields a
DataFrame with those labels as columns. -/
def effectiveColumns (ws : Worksheet) : List String :=
  if ws.rows.isEmpty then [] else ws.columns

/-- The fatal loader errors (each is an `st.error` + `st.stop` in the source). -/
inductive LoadError where
  /-- Lines 59-61: `WorksheetNotFound`. -/
  | worksheetNotFound (week : String) : LoadError
  /-- Lines 66-70: a required column is missing after header stripping. -/
  | missingColumns (week : String) : LoadError
deriving DecidableEq, Repr

/-- Line 51: the five fixed period names. -/
def weeks : List String := ["week 1", "week 2", "week 3", "week 4", "week 5"]

/-- Line 66: the required header set. -/
def requiredColumns : List String :=
  ["G-Sub Group(Name)", "G-Loc/Brand(Name)", "Description", "Location Name", "Unit", "Quantity"]

/-- Whitespace as stripped by Python's `str.strip()`. -/
def isStrippableChar (c : Char) : Bool :=
  c = ' ' || c = '\t' || c = '\n' || c = '\x0d' || c = '\x0c' || c = '\x0b'

/-- Line 64: `df.columns.str.strip()` — drop leading and trailing whitespace
from one header label. -/
def stripLabel (s : String) : String :=
  String.mk ((((s.toList.dropWhile isStrippableChar).reverse.dropWhile isStrippableChar).reverse))

/-- Lines 71-78: normalize the quantity and rename the fields into the
canonical record shape. -/
def normalizeRow (r : RawRow) : StockRecord :=
  ⟨r.subGroup, r.brand, r.desc, r.location, r.unit, normalizeQuantity r.quantity⟩

/-- The per-week output of the loader: normalized records plus the value read
from the as-of cell `I1` (lines 83-85) — stored as-is, even when absent. -/
structure LoadedWeek where
  records : List StockRecord
  updateDate : Option String
deriving DecidableEq, Repr

/-- Lines 56-85, one iteration: fetch the worksheet (fatal if absent), build
the DataFrame (a zero-data-row sheet loses its header labels, see
`effectiveColumns`), strip the header labels, check the required columns
(fatal if one is missing — on a column-less empty DataFrame the invocation
likewise halts, at the `.str` accessor caught by the caller's handler or at
the explicit check; both are modelled as the missing-columns fatal error),
normalize the rows, and read `acell("I1").value` with no emptiness check. -/
def loadWeek (src : String → Option Worksheet) (week : String) : Except LoadError LoadedWeek :=
  match src week with
  | none => .error (.worksheetNotFound week)
  | some ws =>
    if requiredColumns.all (fun c => ((effectiveColumns ws).map stripLabel).contains c) then
      .ok ⟨ws.rows.map normalizeRow, ws.asOfCell⟩
    else .error (.missingColumns week)

/-- Lines 50-88: load all five weeks in order, stopping at the first fatal
error (`st.stop`). -/
def getDataFromGoogleSheet (src : String → Option Worksheet) :
    Except LoadError (List (String × LoadedWeek)) :=
  weeks.mapM (fun w => (loadWeek src w).map (fun lw => (w, lw)))

/-! ## Location abbreviation and the aggregated location field -/

/-- Lines 40-46: the fixed location-to-short-code lookup table. -/
def LOCATION_ABBREVIATIONS : List (String × String) :=
  [("Direct Shipment Warehouse", "DSW"), ("TIN WAN", "TW"), ("KERRY 1", "K1"),
    ("Hong Kong Ice", "HKIce"), ("Macau", "澳")]

/-- Abbreviation with identity fallback: a name found in the table maps to its
short code, an unknown name passes through unchanged. -/
def abbreviateLocation (name : String) : String :=
  (LOCATION_ABBREVIATIONS.lookup name).getD name

/-- The locations of the week-1 records contributing to one aggregated
identity. -/
def contributingLocations (f : Frames) (id : Identity) : List String :=
  (f.w1.filter (matchesIdentity id)).map (fun r => r.location)

/-- Modelled from the spec: the rendering of the aggregated row's location
field — "a sorted, de-duplicated, abbreviated join of contributing location
names".  The join itself (abbreviate, de-duplicate, sort) is not present in
`src/inventory_dashboard.py`: that revision declares `LOCATION_ABBREVIATIONS`
but never uses it, and its aggregated view carries no location column. -/
def renderLocations (locs : List String) : List String :=
  List.insertionSort (· ≤ ·) (locs.map abbreviateLocation).dedup

/-- Modelled from the spec: the location field of the aggregated row of one
identity. -/
def aggregatedLocationField (f : Frames) (id : Identity) : List String :=
  renderLocations (contributingLocations f id)

/-! ## Concrete data used by counterexamples and witnesses -/

/-- Shorthand for building one normalized record. -/
def mkRecord (s b d l u : String) (q : ℚ) : StockRecord :=
  ⟨s, b, d, l, u, q⟩

/-- The aggregated identity of the running example. -/
def milkId : Identity := ⟨"Dairy", "Acme", "Milk 1L", "ea"⟩

/-- The week-1 record of the running example, with zero latest stock. -/
def milkRecordW1 : StockRecord := mkRecord "Dairy" "Acme" "Milk 1L" "DSW" "ea" 0

/-- A dataset whose identity is present in both recent weeks but completely out
of stock in the latest one: week-1 total `0`, week-2 total `5`. -/
def outOfStockFrames : Frames :=
  { w1 := [milkRecordW1]
    w2 := [mkRecord "Dairy" "Acme" "Milk 1L" "DSW" "ea" 5]
    w3 := [], w4 := [], w5 := [] }

/-- A dataset with one individually depleted location (`DSW` at `0`) whose
shortfall is compensated by another location (`TW` at `20`). -/
def depletedLocFrames : Frames :=
  { w1 := [mkRecord "Dairy" "Acme" "Milk 1L" "DSW" "ea" 0,
           mkRecord "Dairy" "Acme" "Milk 1L" "TW" "ea" 20]
    w2 := [mkRecord "Dairy" "Acme" "Milk 1L" "DSW" "ea" 10]
    w3 := [], w4 := [], w5 := [] }

/-- A single-location dataset with the same per-period totals as
`depletedLocFrames`. -/
def singleLocFrames : Frames :=
  { w1 := [mkRecord "Dairy" "Acme" "Milk 1L" "X" "ea" 20]
    w2 := [mkRecord "Dairy" "Acme" "Milk 1L" "X" "ea" 10]
    w3 := [], w4 := [], w5 := [] }

/-- The spec §8 example: quantities `[week1=3, week2=10]`. -/
def specExampleFrames : Frames :=
  { w1 := [mkRecord "Dairy" "Acme" "Milk 1L" "DSW" "ea" 3]
    w2 := [mkRecord "Dairy" "Acme" "Milk 1L" "DSW" "ea" 10]
    w3 := [], w4 := [], w5 := [] }

/-- One valid raw data row. -/
def exRawRow : RawRow := ⟨"Dairy", "Acme", "Milk 1L", "DSW", "ea", some 3⟩

/-- A worksheet carrying all required columns (one with stray whitespace, as
stripped by line 64), one data row, and an empty as-of cell `I1`. -/
def emptyAsOfWs : Worksheet :=
  ⟨["  G-Sub Group(Name) ", "G-Loc/Brand(Name)", "Description", "Location Name", "Unit",
      "Quantity"], [exRawRow], none⟩

/-- A source exposing `emptyAsOfWs` under every one of the five week names. -/
def emptyAsOfSrc : String → Option Worksheet :=
  fun w => if w ∈ weeks then some emptyAsOfWs else none

/-- A source with no worksheets at all. -/
def noWorksheetSrc : String → Option Worksheet :=
  fun _ => none

/-- A row whose description is `"abc"` (no field contains `"a.c"` literally). -/
def rAbc : StockRecord := mkRecord "xxx" "yyy" "abc" "L1" "ea" 1

/-- A record whose description is `"Milk 1L"`, for the case-insensitivity
example. -/
def milkSearchRec : StockRecord := mkRecord "Dairy" "Acme" "Milk 1L" "DSW" "ea" 3

/-! ## Theorems -/

/-- Claim C1, as frozen, is false on the code: for the identity of
`outOfStockFrames` (which is in the low-stock view), the aggregated totals are
`q1 = 0`, `q2 = 5`, so `max(0, q2 - q1) = 5`, yet the change cell is the
`"N/A"` marker (either total being `0` triggers it) and `"Last Week Usage"` is
`0`. -/
theorem c1_counterexample :
    milkId ∈ lowStockIdentities outOfStockFrames ∧
    aggQtyWeek1 outOfStockFrames.w1 milkId = 0 ∧
    weekQtyLater outOfStockFrames.w2 milkId = 5 ∧
    max 0 (weekQtyLater outOfStockFrames.w2 milkId - aggQtyWeek1 outOfStockFrames.w1 milkId)
      = 5 ∧
    lastWeekUsage outOfStockFrames milkId = 0 ∧ (0 : ℚ) ≠ 5 := by
  refine ⟨?_, ?_, ?_, ?_, ?_, by norm_num⟩
  · simp [lowStockIdentities, outOfStockFrames, milkRecordW1, toIdentity, mkRecord, milkId]
  · simp [aggQtyWeek1, matchesIdentity, outOfStockFrames, milkRecordW1, mkRecord, milkId]
  · simp [weekQtyLater, matchesIdentity, outOfStockFrames, mkRecord, milkId]
  · rw [show weekQtyLater outOfStockFrames.w2 milkId = 5 from by
        simp [weekQtyLater, matchesIdentity, outOfStockFrames, mkRecord, milkId],
      show aggQtyWeek1 outOfStockFrames.w1 milkId = 0 from by
        simp [aggQtyWeek1, matchesIdentity, outOfStockFrames, milkRecordW1, mkRecord, milkId]]
    norm_num
  · simp [lastWeekUsage, deltaCell, aggQtyWeek1, weekQtyLater, matchesIdentity,
      outOfStockFrames, milkRecordW1, mkRecord, milkId]

/-- Claim C1, amended: for every identity in the low-stock view,
`"Last Week Usage"` equals `max(0, q[week2] - q[week1])` on the aggregated
per-period totals whenever both totals are nonzero; when either total is zero
(in particular when a missing quantity was aggregated to `0`), the week2→week1
change cell is the `"N/A"` marker and the usage is `0`. -/
theorem c1_last_week_usage (f : Frames) (id : Identity) :
    (aggQtyWeek1 f.w1 id ≠ 0 → weekQtyLater f.w2 id ≠ 0 →
      lastWeekUsage f id = max 0 (weekQtyLater f.w2 id - aggQtyWeek1 f.w1 id)) ∧
    (aggQtyWeek1 f.w1 id = 0 ∨ weekQtyLater f.w2 id = 0 → lastWeekUsage f id = 0) := by
  constructor
  · intro h1 h2
    have hd : deltaCell (aggQtyWeek1 f.w1 id) (weekQtyLater f.w2 id)
        = some (weekQtyLater f.w2 id - aggQtyWeek1 f.w1 id) := by
      unfold deltaCell
      rw [if_neg (by tauto)]
    unfold lastWeekUsage
    rw [hd]
    dsimp only
    rcases le_or_lt (weekQtyLater f.w2 id - aggQtyWeek1 f.w1 id) 0 with h | h
    · rw [if_neg (not_lt.mpr h)]
      exact (max_eq_left h).symm
    · rw [if_pos h]
      exact (max_eq_right h.le).symm
  · intro h
    unfold lastWeekUsage deltaCell
    rw [if_pos h]

/-- Witness for `c1_last_week_usage`: on the spec §8 example data
(`week1 = 3`, `week2 = 10`) the amended formula applies. -/
theorem c1_last_week_usage_witness :
    lastWeekUsage specExampleFrames milkId =
      max 0 (weekQtyLater specExampleFrames.w2 milkId - aggQtyWeek1 specExampleFrames.w1 milkId) :=
  (c1_last_week_usage specExampleFrames milkId).1
    (by simp [aggQtyWeek1, matchesIdentity, specExampleFrames, mkRecord, milkId])
    (by simp [weekQtyLater, matchesIdentity, specExampleFrames, mkRecord, milkId])

/-- Claim C2: an identity is in `low_stock_total` iff it occurs in the week-1
frame and its week-1 quantity summed over all locations is strictly below the
usage signal derived from the aggregated per-period totals; and the comparison
depends on the per-period aggregates only, so an individually depleted location
never flags an identity whose aggregate totals compensate. -/
theorem c2_low_stock_flag :
    (∀ f id, id ∈ lowStockTotal f ↔
      id ∈ lowStockIdentities f ∧ aggQtyWeek1 f.w1 id < lastWeekUsage f id) ∧
    (∀ f g id, aggQtyWeek1 f.w1 id = aggQtyWeek1 g.w1 id →
      weekQtyLater f.w2 id = weekQtyLater g.w2 id →
      lowStockCompare (aggQtyWeek1 f.w1 id) (lastWeekUsage f id)
        = lowStockCompare (aggQtyWeek1 g.w1 id) (lastWeekUsage g id)) := by
  constructor
  · intro f id
    simp [lowStockTotal, List.mem_filter, lowStockCompare]
  · intro f g id h1 h2
    simp only [lowStockCompare, lastWeekUsage, h1, h2]

/-- Witness for `c2_low_stock_flag`: the dataset with a depleted `DSW` location
compensated by `TW` behaves exactly like the single-location dataset with the
same totals, and its membership in `low_stock_total` is governed by the
aggregated comparison. -/
theorem c2_low_stock_flag_witness :
    (milkId ∈ lowStockTotal depletedLocFrames ↔
      milkId ∈ lowStockIdentities depletedLocFrames ∧
        aggQtyWeek1 depletedLocFrames.w1 milkId < lastWeekUsage depletedLocFrames milkId) ∧
    lowStockCompare (aggQtyWeek1 depletedLocFrames.w1 milkId)
        (lastWeekUsage depletedLocFrames milkId)
      = lowStockCompare (aggQtyWeek1 singleLocFrames.w1 milkId)
        (lastWeekUsage singleLocFrames milkId) :=
  ⟨c2_low_stock_flag.1 depletedLocFrames milkId,
    c2_low_stock_flag.2 depletedLocFrames singleLocFrames milkId
      (by simp [aggQtyWeek1, matchesIdentity, depletedLocFrames, singleLocFrames, mkRecord, milkId])
      (by simp [weekQtyLater, matchesIdentity, depletedLocFrames, singleLocFrames, mkRecord, milkId])⟩

/-- Claim C9: with the usage signal held fixed, the comparison of line 345 is
monotone — raising the latest-period quantity can only turn the flag off,
never on. -/
theorem c9_flag_monotone (usage q q2 : ℚ) (hq : q ≤ q2) :
    (lowStockCompare q usage = false → lowStockCompare q2 usage = false) ∧
    (lowStockCompare q2 usage = true → lowStockCompare q usage = true) := by
  simp only [lowStockCompare, decide_eq_false_iff_not, decide_eq_true_eq]
  exact ⟨fun h hlt => h (lt_of_le_of_lt hq hlt), fun h => lt_of_le_of_lt hq h⟩

/-- Witness for `c9_flag_monotone` at `usage = 7`, quantities `3 ≤ 5`. -/
theorem c9_flag_monotone_witness : lowStockCompare 3 7 = true :=
  (c9_flag_monotone 7 3 5 (by norm_num)).2
    (by simp only [lowStockCompare, decide_eq_true_eq]; norm_num)

/-- Claim C10: when the aggregated week-1 total of an identity is `0`, the
week2→week1 change cell is the `"N/A"` marker, `"Last Week Usage"` is `0`, the
strict comparison `0 < 0` fails, and the identity is never in
`low_stock_total`. -/
theorem c10_out_of_stock_never_flagged (f : Frames) (id : Identity)
    (h : aggQtyWeek1 f.w1 id = 0) :
    deltaCell (aggQtyWeek1 f.w1 id) (weekQtyLater f.w2 id) = none ∧
    lastWeekUsage f id = 0 ∧
    lowStockCompare (aggQtyWeek1 f.w1 id) (lastWeekUsage f id) = false ∧
    id ∉ lowStockTotal f := by
  have hd : deltaCell (aggQtyWeek1 f.w1 id) (weekQtyLater f.w2 id) = none := by
    simp [deltaCell, h]
  have hu : lastWeekUsage f id = 0 := by
    unfold lastWeekUsage
    rw [hd]
  have hc : lowStockCompare (aggQtyWeek1 f.w1 id) (lastWeekUsage f id) = false := by
    simp [lowStockCompare, h, hu]
  refine ⟨hd, hu, hc, ?_⟩
  simp [lowStockTotal, List.mem_filter, hc]

/-- Witness for `c10_out_of_stock_never_flagged`: the completely out-of-stock
identity of `outOfStockFrames` is not reported. -/
theorem c10_out_of_stock_never_flagged_witness :
    milkId ∉ lowStockTotal outOfStockFrames :=
  (c10_out_of_stock_never_flagged outOfStockFrames milkId
    (by simp [aggQtyWeek1, matchesIdentity, outOfStockFrames, milkRecordW1, mkRecord, milkId])).2.2.2

/-- Positional shape of the change-cell loop: the `i`-th change cell is
`deltaCellOpt` of the `i`-th and `(i+1)`-th week cells. -/
lemma adjacentDeltas_get? (qs : List (Option ℚ)) (i : ℕ) (a b : Option ℚ)
    (ha : qs.get? i = some a) (hb : qs.get? (i + 1) = some b) :
    (adjacentDeltas qs).get? i = some (deltaCellOpt a b) := by
  induction qs generalizing i with
  | nil => simp at ha
  | cons x xs ih =>
    cases xs with
    | nil =>
      rw [List.get?_cons_succ] at hb
      simp at hb
    | cons y ys =>
      cases i with
      | zero =>
        rw [List.get?_cons_zero] at ha
        rw [List.get?_cons_succ, List.get?_cons_zero] at hb
        cases ha
        cases hb
        rfl
      | succ n =>
        rw [List.get?_cons_succ] at ha hb
        exact ih n ha hb

/-- Claim C3, as frozen, is false on the code: in `outOfStockFrames` the
identity is present in both week 1 (quantity `0`) and week 2 (quantity `5`),
yet the first change cell of its reconciled row is the `"N/A"` marker, not
`5 - 0`: the zero test of lines 253-257 conflates a present zero quantity with
an absent one. -/
theorem c3_counterexample :
    searchQtys outOfStockFrames milkRecordW1 = [some 0, some 5, none, none, none] ∧
    (searchDeltas outOfStockFrames milkRecordW1).get? 0 = some none ∧
    some (none : Option ℚ) ≠ some (some ((5 : ℚ) - 0)) := by
  refine ⟨?_, ?_, by simp⟩
  · simp [searchQtys, lookupQty, matchesRecord, outOfStockFrames, milkRecordW1, mkRecord]
  · simp [searchDeltas, adjacentDeltas, deltaCellOpt, deltaCell, fillna0, searchQtys,
      lookupQty, matchesRecord, outOfStockFrames, milkRecordW1, mkRecord]

/-- Claim C3, amended: for every reconciled row and adjacent period pair, the
change cell is `q(i+1) - q(i)` when both quantities are present and nonzero;
when either quantity is absent — or zero, absence being coerced to `0` before
the test — the cell is the `"N/A"` marker (never a silently defaulted zero). -/
theorem c3_delta_cells (f : Frames) (r : StockRecord) (i : ℕ) (a b : Option ℚ)
    (ha : (searchQtys f r).get? i = some a) (hb : (searchQtys f r).get? (i + 1) = some b) :
    (searchDeltas f r).get? i = some (deltaCellOpt a b) ∧
    (∀ x y, a = some x → b = some y → x ≠ 0 → y ≠ 0 → deltaCellOpt a b = some (y - x)) ∧
    (a = none ∨ b = none ∨ a = some 0 ∨ b = some 0 → deltaCellOpt a b = none) := by
  refine ⟨adjacentDeltas_get? _ i a b ha hb, ?_, ?_⟩
  · intro x y hx hy hx0 hy0
    subst hx
    subst hy
    unfold deltaCellOpt deltaCell fillna0
    simp [hx0, hy0]
  · intro h
    unfold deltaCellOpt deltaCell fillna0
    rcases h with h | h | h | h <;> subst h <;> simp

/-- Witness for `c3_delta_cells` at the first adjacent pair of the
`outOfStockFrames` row: a present-but-zero operand yields the `"N/A"` cell. -/
theorem c3_delta_cells_witness :
    (searchDeltas outOfStockFrames milkRecordW1).get? 0 = some (deltaCellOpt (some 0) (some 5)) :=
  (c3_delta_cells outOfStockFrames milkRecordW1 0 (some 0) (some 5)
    (by simp [searchQtys, milkRecordW1, mkRecord])
    (by simp [searchQtys, lookupQty, matchesRecord, outOfStockFrames, milkRecordW1, mkRecord])).1

/-- Claim C4: both aggregation paths sum quantities over all records sharing
the non-location identity fields (the `groupby` of week 1 and the match-sum of
the later weeks agree); the rendered location field of an aggregated row is a
sorted, duplicate-free list whose members are exactly the abbreviations of the
contributing locations; and abbreviation uses the fixed lookup table, with
unknown names passing through unchanged.  The rendering itself is modelled
from the spec (`renderLocations`), the table and the aggregation from the
source. -/
theorem c4_aggregation_and_location_rendering :
    (∀ frame id, weekQtyLater frame id = aggQtyWeek1 frame id) ∧
    (∀ f id, List.Sorted (· ≤ ·) (aggregatedLocationField f id) ∧
      (aggregatedLocationField f id).Nodup ∧
      (∀ x, x ∈ aggregatedLocationField f id ↔
        ∃ r, r ∈ f.w1 ∧ matchesIdentity id r = true ∧ abbreviateLocation r.location = x)) ∧
    (abbreviateLocation "Direct Shipment Warehouse" = "DSW" ∧
      abbreviateLocation "TIN WAN" = "TW" ∧
      abbreviateLocation "KERRY 1" = "K1" ∧
      abbreviateLocation "Hong Kong Ice" = "HKIce" ∧
      abbreviateLocation "Macau" = "澳") ∧
    (∀ name, LOCATION_ABBREVIATIONS.lookup name = none → abbreviateLocation name = name) := by
  refine ⟨?_, ?_, ⟨rfl, rfl, rfl, rfl, rfl⟩, ?_⟩
  · intro frame id
    unfold weekQtyLater aggQtyWeek1
    by_cases h : (frame.filter (matchesIdentity id)).isEmpty
    · rw [if_pos h, List.isEmpty_iff.mp h]
      simp
    · rw [if_neg h]
  · intro f id
    refine ⟨List.sorted_insertionSort _ _, ?_, ?_⟩
    · exact (List.perm_insertionSort _ _).nodup_iff.mpr (List.nodup_dedup _)
    · intro x
      rw [aggregatedLocationField, renderLocations, (List.perm_insertionSort _ _).mem_iff,
        List.mem_dedup, List.mem_map]
      constructor
      · rintro ⟨l, hl, rfl⟩
        rcases List.mem_map.mp hl with ⟨r, hr, rfl⟩
        exact ⟨r, (List.mem_filter.mp hr).1, (List.mem_filter.mp hr).2, rfl⟩
      · rintro ⟨r, hr, hm, rfl⟩
        exact ⟨r.location, List.mem_map.mpr ⟨r, List.mem_filter.mpr ⟨hr, hm⟩, rfl⟩, rfl⟩
  · intro name h
    unfold abbreviateLocation
    rw [h]
    rfl

/-- Witness for `c4_aggregation_and_location_rendering`: an unknown location
name passes through unchanged, a known one is abbreviated, the rendered field
of the compensated dataset is sorted, and the no-match branch of the later-week
aggregation returns the empty sum. -/
theorem c4_aggregation_and_location_rendering_witness :
    abbreviateLocation "Warehouse X" = "Warehouse X" ∧
    abbreviateLocation "TIN WAN" = "TW" ∧
    List.Sorted (· ≤ ·) (aggregatedLocationField depletedLocFrames milkId) ∧
    weekQtyLater depletedLocFrames.w3 milkId = aggQtyWeek1 depletedLocFrames.w3 milkId :=
  ⟨c4_aggregation_and_location_rendering.2.2.2 "Warehouse X" rfl,
    c4_aggregation_and_location_rendering.2.2.1.2.1,
    (c4_aggregation_and_location_rendering.2.1 depletedLocFrames milkId).1,
    c4_aggregation_and_location_rendering.1 depletedLocFrames.w3 milkId⟩

/-- Claim C5: the normalized quantity is always non-negative — a failed
numeric coercion yields `0`, a negative value is clamped to `0` — and every
record emitted by the loader (which runs before any reconciliation or
classification) carries such a normalized quantity. -/
theorem c5_quantity_normalization :
    (∀ raw, 0 ≤ normalizeQuantity raw) ∧
    normalizeQuantity none = 0 ∧
    (∀ v : ℚ, v < 0 → normalizeQuantity (some v) = 0) ∧
    (∀ src week lw, loadWeek src week = .ok lw → ∀ r ∈ lw.records, 0 ≤ r.quantity) := by
  have hpos : ∀ raw, 0 ≤ normalizeQuantity raw := by
    intro raw
    cases raw with
    | none => simp [normalizeQuantity, fillna0, clipLower0, toNumericCoerced]
    | some v =>
      simp only [normalizeQuantity, fillna0, clipLower0, toNumericCoerced, Option.map_some,
        Option.getD_some]
      exact le_max_right v 0
  refine ⟨hpos, rfl, ?_, ?_⟩
  · intro v hv
    simp only [normalizeQuantity, fillna0, clipLower0, toNumericCoerced, Option.map_some,
      Option.getD_some]
    exact max_eq_right hv.le
  · intro src week lw hok r hr
    unfold loadWeek at hok
    cases hsrc : src week with
    | none => rw [hsrc] at hok; cases hok
    | some ws =>
      rw [hsrc] at hok
      dsimp only at hok
      by_cases hc :
        requiredColumns.all (fun c => ((effectiveColumns ws).map stripLabel).contains c) = true
      · rw [if_pos hc] at hok
        cases hok
        rcases List.mem_map.mp hr with ⟨rr, _, rfl⟩
        exact hpos rr.quantity
      · rw [if_neg hc] at hok
        cases hok

/-- Witness for `c5_quantity_normalization`: feeding `-5` yields stored
quantity `0`, which is non-negative. -/
theorem c5_quantity_normalization_witness :
    normalizeQuantity (some (-5)) = 0 ∧ 0 ≤ normalizeQuantity (some (-5)) :=
  ⟨c5_quantity_normalization.2.2.1 (-5) (by norm_num), c5_quantity_normalization.1 (some (-5))⟩

/-- Matching the empty pattern succeeds on every text. -/
lemma regexSearch_nil (l : List Char) : regexSearch [] l = true := by
  cases l <;> simp [regexSearch, matchHere]

/-- Claim C6, as frozen, is false on the code: the branch at line 212 is
`if search_term or submit_button:`, so submitting the form with an empty query
runs the filter with the empty pattern — which matches every row — instead of
returning the "no query" state. -/
theorem c6_counterexample :
    searchBranch [rAbc] "" true = SearchOutcome.results [rAbc] ∧
    SearchOutcome.results [rAbc] ≠ SearchOutcome.noQuery := by
  constructor
  · simp [searchBranch, searchFilter, rowMatchesQuery, regexSearch_nil]
  · intro h
    cases h

/-- Claim C6, amended: with the form not submitted, an empty query yields the
explicit "no query" state, which is distinct from the "zero results" state of
a non-empty query matching no row; when the form is submitted with an empty
query, the filter runs with the empty pattern and keeps every row. -/
theorem c6_no_query_state :
    (∀ rows, searchBranch rows "" false = SearchOutcome.noQuery) ∧
    (∀ rows q sub, q ≠ "" → searchFilter rows q = [] →
      searchBranch rows q sub = SearchOutcome.zeroResults) ∧
    SearchOutcome.noQuery ≠ SearchOutcome.zeroResults ∧
    (∀ rows, searchFilter rows "" = rows) := by
  refine ⟨?_, ?_, ?_, ?_⟩
  · intro rows
    simp [searchBranch]
  · intro rows q sub hq hf
    simp [searchBranch, hq, hf]
  · intro h
    cases h
  · intro rows
    unfold searchFilter rowMatchesQuery
    rw [List.filter_eq_self]
    intro r _
    simp [show ("" : String).toList = [] from rfl, regexSearch_nil]

/-- Witness for `c6_no_query_state`: a non-empty query with no match lands in
the zero-results state, while the unsubmitted empty query lands in the
no-query state. -/
theorem c6_no_query_state_witness :
    searchBranch [] "zzz" false = SearchOutcome.zeroResults ∧
    searchBranch [rAbc] "" false = SearchOutcome.noQuery :=
  ⟨c6_no_query_state.2.1 [] "zzz" false (by decide) rfl, c6_no_query_state.1 [rAbc]⟩

/-- Claim C7, as frozen, is false on the code: lines 84-85 read
`worksheet.acell("I1").value` and store it with no emptiness check, so a source
whose five worksheets are present and well-formed but whose as-of cell is empty
loads successfully with an absent label — no fatal error is raised. -/
theorem c7_counterexample :
    emptyAsOfWs.asOfCell = none ∧
    loadWeek emptyAsOfSrc "week 1" = .ok ⟨[normalizeRow exRawRow], none⟩ ∧
    (getDataFromGoogleSheet emptyAsOfSrc).isOk = true := by
  exact ⟨rfl, rfl, rfl⟩

/-- Claim C7, amended: a missing worksheet for a named period is a fatal error,
as is a required column missing after header stripping — in particular a
zero-data-row sheet, whose DataFrame loses every column; but an empty as-of
cell is not checked — the loader stores the (possibly absent) cell value as
the period label and succeeds. -/
theorem c7_source_errors :
    (∀ src week, src week = none → loadWeek src week = .error (.worksheetNotFound week)) ∧
    (∀ src week ws, src week = some ws →
      requiredColumns.all (fun c => ((effectiveColumns ws).map stripLabel).contains c) = true →
      loadWeek src week = .ok ⟨ws.rows.map normalizeRow, ws.asOfCell⟩) ∧
    (∀ src week ws, src week = some ws →
      requiredColumns.all (fun c => ((effectiveColumns ws).map stripLabel).contains c) = false →
      loadWeek src week = .error (.missingColumns week)) ∧
    (∀ src week ws, src week = some ws → ws.rows = [] →
      loadWeek src week = .error (.missingColumns week)) := by
  have herr : ∀ src week (ws : Worksheet), src week = some ws →
      requiredColumns.all (fun c => ((effectiveColumns ws).map stripLabel).contains c) = false →
      loadWeek src week = .error (.missingColumns week) := by
    intro src week ws h hc
    unfold loadWeek
    rw [h]
    dsimp only
    rw [if_neg (by rw [hc]; simp)]
  refine ⟨?_, ?_, herr, ?_⟩
  · intro src week h
    unfold loadWeek
    rw [h]
  · intro src week ws h hc
    unfold loadWeek
    rw [h]
    dsimp only
    rw [if_pos hc]
  · intro src week ws h hr
    refine herr src week ws h ?_
    rw [effectiveColumns, if_pos (by rw [hr]; rfl)]
    rfl

/-- Witness for `c7_source_errors`: a missing week-1 worksheet is fatal, a
sheet with headers but no data rows is fatal, and the well-formed worksheet
with an empty as-of cell loads successfully. -/
theorem c7_source_errors_witness :
    loadWeek noWorksheetSrc "week 1" = .error (.worksheetNotFound "week 1") ∧
    loadWeek (fun _ => some ⟨requiredColumns, [], none⟩) "week 1"
      = .error (.missingColumns "week 1") ∧
    loadWeek emptyAsOfSrc "week 1" = .ok ⟨[normalizeRow exRawRow], none⟩ :=
  ⟨c7_source_errors.1 noWorksheetSrc "week 1" rfl,
    c7_source_errors.2.2.2 (fun _ => some ⟨requiredColumns, [], none⟩) "week 1"
      ⟨requiredColumns, [], none⟩ rfl rfl,
    c7_source_errors.2.1 emptyAsOfSrc "week 1" emptyAsOfWs rfl rfl⟩

/-- Claim C8, as frozen, is false on the code: `str.contains` interprets the
query as a regular expression, so the query `"a.c"` qualifies the row whose
description is `"abc"` although `"a.c"` is not a case-insensitive substring of
any of its three searched fields. -/
theorem c8_counterexample :
    rowMatchesQuery "a.c" rAbc = true ∧
    isSubstrCI "a.c" rAbc.subGroup = false ∧
    isSubstrCI "a.c" rAbc.brand = false ∧
    isSubstrCI "a.c" rAbc.desc = false ∧
    ("a.c" : String) ≠ "" := by
  exact ⟨by decide, by decide, by decide, by decide, by decide⟩

/-- One non-metacharacter pattern character matches exactly up to case. -/
lemma charMatches_of_not_meta {p : Char} (h : isRegexMeta p = false) (c : Char) :
    charMatches p c = charEqCI p c := by
  have hp : p ≠ '.' := by
    intro e
    subst e
    simp [isRegexMeta] at h
  simp [charMatches, charEqCI, hp]

/-- On a metacharacter-free pattern, the anchored regex match is the anchored
case-insensitive literal match. -/
lemma matchHere_eq_literalHere (pat : List Char) (h : ∀ c ∈ pat, isRegexMeta c = false)
    (s : List Char) : matchHere pat s = literalHere pat s := by
  induction pat generalizing s with
  | nil => cases s <;> rfl
  | cons p ps ih =>
    cases s with
    | nil => rfl
    | cons c cs =>
      rw [matchHere, literalHere, charMatches_of_not_meta (h p (by simp)) c,
        ih (fun c hc => h c (by simp [hc])) cs]

/-- On a metacharacter-free pattern, the regex search is the case-insensitive
substring test. -/
lemma regexSearch_eq_substrCI (pat : List Char) (h : ∀ c ∈ pat, isRegexMeta c = false)
    (s : List Char) : regexSearch pat s = substrCI pat s := by
  induction s with
  | nil => rw [regexSearch, substrCI, matchHere_eq_literalHere pat h]
  | cons c cs ih => rw [regexSearch, substrCI, matchHere_eq_literalHere pat h, ih]

/-- Claim C8, amended: for every query free of regex metacharacters, the filter
qualifies a row iff the query is a case-insensitive substring of its
`Sub Group`, `Brand` or `Desc` field (OR semantics); queries containing
metacharacters are instead matched as regular expressions.  In particular
`"milk"` matches description `"Milk 1L"`. -/
theorem c8_search_semantics :
    (∀ q r, (∀ c ∈ q.toList, isRegexMeta c = false) →
      rowMatchesQuery q r
        = (isSubstrCI q r.subGroup || isSubstrCI q r.brand || isSubstrCI q r.desc)) ∧
    rowMatchesQuery "milk" milkSearchRec = true ∧
    isSubstrCI "milk" "Milk 1L" = true := by
  refine ⟨?_, by decide, by decide⟩
  intro q r h
  rw [rowMatchesQuery, isSubstrCI, isSubstrCI, isSubstrCI, regexSearch_eq_substrCI q.toList h,
    regexSearch_eq_substrCI q.toList h, regexSearch_eq_substrCI q.toList h]

/-- Witness for `c8_search_semantics`: the metacharacter-free query `"milk"`
filtered against the `"Milk 1L"` record reduces to the substring test on its
three fields. -/
theorem c8_search_semantics_witness :
    rowMatchesQuery "milk" milkSearchRec
      = (isSubstrCI "milk" milkSearchRec.subGroup || isSubstrCI "milk" milkSearchRec.brand ||
          isSubstrCI "milk" milkSearchRec.desc) :=
  c8_search_semantics.1 "milk" milkSearchRec (by decide)

end InventoryDashboard
